import Mathlib

/-!
Verification of the cooperative-society back-office application
(member savings, loan origination/disbursement/repayment, balance
reconciliation).  The Python/Django source is shallowly embedded:
money amounts (`Decimal` with two fractional digits in the source)
are modelled as exact rationals `ℚ`; database rows become Lean
structures; each view/helper function becomes a pure Lean function
over those structures.  Only fields that the verified properties
touch are carried; textual `description` fields are modelled as the
boolean facts the source queries about them (`icontains` tests).
-/

namespace SitaCoop

/-- Loan.STATUS_CHOICES (loans/models.py). -/
inductive LoanStatus where
  | pending | under_review | approved | rejected | disbursed
  | active | completed | defaulted | written_off
deriving DecidableEq, Repr

/-- SavingsTransaction.TRANSACTION_TYPE_CHOICES (savings/models.py). -/
inductive SavTxnType where
  | compulsory | voluntary | withdrawal | interest | penalty
  | loan_repayment | collateral
deriving DecidableEq, Repr

/-- Shared status choices used by SavingsTransaction, LoanRepayment and
Transaction rows (pending/completed/failed/cancelled). -/
inductive RowStatus where
  | pending | completed | failed | cancelled
deriving DecidableEq, Repr

/-- transactions.models.Transaction.transaction_type values the
balance formulas inspect. -/
inductive TxnType where
  | income | expense | transfer
deriving DecidableEq, Repr

/-- savings.models.SavingsAccount: the four fields mutated by the
collateral / deposit / repayment operations. -/
structure SavingsAccount where
  balance : ℚ
  collateral_amount : ℚ
  available_balance : ℚ
  has_active_loan : Bool
deriving DecidableEq, Repr

/-- savings.models.SavingsTransaction: fields read or written by the
deposit / auto-split / collateral paths.  The source's formatted
`description` strings are not modelled. -/
structure SavingsTxn where
  transaction_type : SavTxnType
  amount : ℚ
  balance_before : ℚ
  balance_after : ℚ
  status : RowStatus
  is_loan_repayment : Bool
  repayment_principal : ℚ
  repayment_interest : ℚ
deriving DecidableEq, Repr

/-- loans.models.Loan: money fields and status. -/
structure Loan where
  status : LoanStatus
  requested_amount : ℚ
  approved_amount : Option ℚ
  principal_balance : ℚ
  interest_balance : ℚ
  total_balance : ℚ
deriving DecidableEq, Repr

/-- loans.models.LoanRepayment: the repayment ledger row. -/
structure LoanRepayment where
  amount : ℚ
  principal_amount : ℚ
  interest_amount : ℚ
  balance_before : ℚ
  balance_after : ℚ
  status : RowStatus
deriving DecidableEq, Repr

/-- members.models.Member, projected to what the balance formulas use:
whether the member is a regular member (not staff/superuser, the
`Member.regular_members()` filter) and the registration fee amount. -/
structure MemberRec where
  is_regular : Bool
  registration_fee_amount : ℚ
deriving DecidableEq, Repr

/-- transactions.models.Transaction projected to the fields the
balance formulas inspect; the two booleans model the
`description__icontains='registration'` and
`description__icontains='loan interest'` tests. -/
structure Txn where
  transaction_type : TxnType
  amount : ℚ
  status : RowStatus
  desc_has_registration : Bool
  desc_has_loan_interest : Bool
deriving DecidableEq, Repr

/-- A snapshot of the database tables the cooperative-balance formulas
aggregate over. -/
structure DBState where
  savings_accounts : List SavingsAccount
  loans : List Loan
  loan_repayments : List LoanRepayment
  members : List MemberRec
  transactions : List Txn
  savings_transactions : List SavingsTxn
deriving Repr

/-! ### SavingsAccount methods (savings/models.py) -/

/-- SavingsAccount.update_available_balance:
`available_balance = balance - collateral_amount`. -/
def update_available_balance (s : SavingsAccount) : SavingsAccount :=
  { s with available_balance := s.balance - s.collateral_amount }

/-- SavingsAccount.set_collateral: sets `collateral_amount`, flags
`has_active_loan = True` and recomputes the available balance. -/
def set_collateral (s : SavingsAccount) (amount : ℚ) : SavingsAccount :=
  update_available_balance { s with collateral_amount := amount, has_active_loan := true }

/-- SavingsAccount.clear_collateral: zeroes the collateral, clears
`has_active_loan` and recomputes the available balance. -/
def clear_collateral (s : SavingsAccount) : SavingsAccount :=
  update_available_balance { s with collateral_amount := 0, has_active_loan := false }

/-- SavingsAccount.get_loan_repayment_amount: the amount above
collateral (new savings), zero when no active loan. -/
def get_loan_repayment_amount (s : SavingsAccount) : ℚ :=
  if s.has_active_loan then max 0 (s.balance - s.collateral_amount) else 0

/-! ### loans/views.py: set_loan_collateral -/

/-- loans.views.set_loan_collateral: if the member has a savings
account with a positive balance, the whole balance becomes collateral
and a `collateral` SavingsTransaction with
`balance_before = balance_after = balance` is recorded; otherwise
nothing happens.  The Bool mirrors the source's return value. -/
def set_loan_collateral (acct : Option SavingsAccount) :
    Option SavingsAccount × Option SavingsTxn × Bool :=
  match acct with
  | none => (none, none, false)
  | some s =>
    if 0 < s.balance then
      let s1 := set_collateral s s.balance
      let txn : SavingsTxn :=
        { transaction_type := .collateral
          amount := s.balance
          balance_before := s.balance
          balance_after := s.balance
          status := .completed
          is_loan_repayment := false
          repayment_principal := 0
          repayment_interest := 0 }
      (some s1, some txn, true)
    else (some s, none, false)

/-! ### loans/views.py: process_loan_repayment_from_deposit -/

/-- Result rows of the deposit auto-split
(loans.views.process_loan_repayment_from_deposit): the updated
account and loan, the `loan_repayment` SavingsTransaction and the
LoanRepayment row when a loan portion exists, and the (possibly
rewritten) original deposit transaction. -/
structure DepositRepayResult where
  acct : SavingsAccount
  loan : Loan
  repay_txn : Option SavingsTxn
  deposit_txn : SavingsTxn
  repayment : Option LoanRepayment
deriving DecidableEq, Repr

/-- loans.views.process_loan_repayment_from_deposit, translated
line by line: the loan portion is `min(amount, interest + principal)`
allocated interest-first; when positive it is removed from the
savings balance again, the original deposit transaction is rewritten
in place (only for `compulsory`/`voluntary` deposits), a
LoanRepayment row is written and the loan balances decremented; the
loan completes and collateral clears when `total_balance <= 0`. -/
def process_loan_repayment_from_deposit (acct : SavingsAccount) (loan : Loan)
    (amount : ℚ) (deposit_txn : SavingsTxn) : Except String DepositRepayResult :=
  if ¬ acct.has_active_loan then .error ("Member has no active loan")
  else if amount ≤ 0 then .error ("Invalid deposit amount")
  else
    let interest_remaining := loan.interest_balance
    let principal_remaining := loan.principal_balance
    let total_outstanding := interest_remaining + principal_remaining
    let loan_repayment_amount := min amount total_outstanding
    let remaining_for_savings := amount - loan_repayment_amount
    let interest_payment := min loan_repayment_amount interest_remaining
    let principal_payment :=
      min (loan_repayment_amount - interest_payment) principal_remaining
    if 0 < loan_repayment_amount then
      let repay_txn : SavingsTxn :=
        { transaction_type := .loan_repayment
          amount := loan_repayment_amount
          balance_before := acct.balance
          balance_after := acct.balance - loan_repayment_amount
          status := .completed
          is_loan_repayment := true
          repayment_principal := principal_payment
          repayment_interest := interest_payment }
      let acct1 := update_available_balance
        { acct with balance := acct.balance - loan_repayment_amount }
      let deposit_txn1 :=
        if deposit_txn.transaction_type = .compulsory ∨
            deposit_txn.transaction_type = .voluntary then
          { deposit_txn with
              amount := remaining_for_savings
              balance_after := deposit_txn.balance_before + remaining_for_savings }
        else deposit_txn
      let rep : LoanRepayment :=
        { amount := loan_repayment_amount
          principal_amount := principal_payment
          interest_amount := interest_payment
          balance_before := loan.total_balance
          balance_after := loan.total_balance - loan_repayment_amount
          status := .completed }
      let loan1 : Loan :=
        { loan with
            principal_balance := loan.principal_balance - principal_payment
            interest_balance := loan.interest_balance - interest_payment
            total_balance := loan.total_balance - loan_repayment_amount }
      if loan1.total_balance ≤ 0 then
        .ok { acct := clear_collateral acct1
              loan := { loan1 with status := .completed }
              repay_txn := some repay_txn
              deposit_txn := deposit_txn1
              repayment := some rep }
      else
        .ok { acct := acct1, loan := loan1, repay_txn := some repay_txn
              deposit_txn := deposit_txn1, repayment := some rep }
    else
      .ok { acct := acct, loan := loan, repay_txn := none
            deposit_txn := deposit_txn, repayment := none }

/-! ### loans/views.py: process_loan_repayment_from_savings (lines 149-232)

The module-level helper defined at line 149.  (At line 759 the module
rebinds the same name to a Django view of a different signature; the
helper as written is what claim sources cite, and it is embedded
as written.) -/

/-- loans.views.process_loan_repayment_from_savings: repay the active
loan out of the member's new savings (the amount above collateral),
interest first; completing the loan clears collateral. -/
def process_loan_repayment_from_savings (acct : SavingsAccount) (loan : Loan)
    (amount : ℚ) :
    Except String (SavingsAccount × Loan × SavingsTxn × LoanRepayment) :=
  if ¬ acct.has_active_loan then .error ("Member has no active loan")
  else
    let available_for_repayment := get_loan_repayment_amount acct
    if available_for_repayment ≤ 0 then
      .error ("No new savings available for loan repayment")
    else
      let repayment_amount := min amount available_for_repayment
      if repayment_amount ≤ 0 then .error ("Insufficient new savings for repayment")
      else
        let interest_remaining := loan.interest_balance
        let principal_remaining := loan.principal_balance
        let interest_payment := min repayment_amount interest_remaining
        let principal_payment :=
          min (repayment_amount - interest_payment) principal_remaining
        let txn : SavingsTxn :=
          { transaction_type := .loan_repayment
            amount := repayment_amount
            balance_before := acct.balance
            balance_after := acct.balance - repayment_amount
            status := .completed
            is_loan_repayment := true
            repayment_principal := principal_payment
            repayment_interest := interest_payment }
        let acct1 := update_available_balance
          { acct with balance := acct.balance - repayment_amount }
        let rep : LoanRepayment :=
          { amount := repayment_amount
            principal_amount := principal_payment
            interest_amount := interest_payment
            balance_before := loan.total_balance
            balance_after := loan.total_balance - repayment_amount
            status := .completed }
        let loan1 : Loan :=
          { loan with
              principal_balance := loan.principal_balance - principal_payment
              interest_balance := loan.interest_balance - interest_payment
              total_balance := loan.total_balance - repayment_amount }
        if loan1.total_balance ≤ 0 then
          .ok (clear_collateral acct1, { loan1 with status := .completed }, txn, rep)
        else
          .ok (acct1, loan1, txn, rep)

/-! ### loans/views.py: loan_repayments (manual staff repayment, POST path)

The view overwrites the split set by `LoanRepaymentForm.save(commit=False)`
with the interest-first allocation (lines 798-800), decrements the loan
balances, recomputes `total_balance` as their sum and completes the loan
when it is `<= 0` (lines 805-813).  The view never touches the member's
savings account: the only account-affecting call,
`allocate_savings_to_loan` on the still-active branch, invokes the
module-level name `process_loan_repayment_from_savings`, which by then
is rebound to a two-argument Django view, so the call raises a
`TypeError` that the view's `except Exception` swallows after the
repayment and loan rows were already saved.  The account is therefore
returned unchanged on every branch. -/
def loan_repayments_post (loan : Loan) (acct : SavingsAccount) (amount : ℚ) :
    Loan × SavingsAccount × LoanRepayment :=
  let interest_remaining := loan.interest_balance
  let principal_remaining := loan.principal_balance
  let interest_amount := min amount interest_remaining
  let principal_amount := min (amount - interest_amount) principal_remaining
  let rep : LoanRepayment :=
    { amount := amount
      principal_amount := principal_amount
      interest_amount := interest_amount
      balance_before := loan.total_balance
      balance_after := loan.total_balance - amount
      status := .completed }
  let principal1 := loan.principal_balance - principal_amount
  let interest1 := loan.interest_balance - interest_amount
  let total1 := principal1 + interest1
  let loan1 : Loan :=
    { loan with
        principal_balance := principal1
        interest_balance := interest1
        total_balance := total1
        status := if total1 ≤ 0 then .completed else loan.status }
  (loan1, acct, rep)

/-! ### savings/forms.py: SavingsDepositForm.save

The deposit pipeline: a SavingsTransaction of the chosen type
(`compulsory`/`voluntary`/`interest`) is written with
`balance_after = balance_before + amount`, the account balance is set
to that value, and — only when `has_active_loan` is set and the
member's first `active` loan has `total_balance > 0` — the whole
deposit amount is handed to `process_loan_repayment_from_deposit`. -/

/-- Rows produced by one run of SavingsDepositForm.save. -/
structure DepositFormResult where
  acct : SavingsAccount
  deposit_txn : SavingsTxn
  loan : Option Loan
  repay_txn : Option SavingsTxn
  repayment : Option LoanRepayment
deriving DecidableEq, Repr

/-- savings.forms.SavingsDepositForm.save, with the member's savings
account passed explicitly (`none` models `get_or_create` creating a
fresh zero-balance account) and `active_loan` standing for
`Loan.objects.filter(member=member, status='active').first()`. -/
def savings_deposit_form_save (acct0 : Option SavingsAccount)
    (ttype : SavTxnType) (amount : ℚ) (active_loan : Option Loan) :
    DepositFormResult :=
  let acct := acct0.getD
    { balance := 0, collateral_amount := 0, available_balance := 0,
      has_active_loan := false }
  let deposit_txn : SavingsTxn :=
    { transaction_type := ttype
      amount := amount
      balance_before := acct.balance
      balance_after := acct.balance + amount
      status := .completed
      is_loan_repayment := false
      repayment_principal := 0
      repayment_interest := 0 }
  let acct1 := update_available_balance
    { acct with balance := deposit_txn.balance_after }
  if acct1.has_active_loan then
    match active_loan with
    | some loan =>
      if 0 < loan.total_balance then
        match process_loan_repayment_from_deposit acct1 loan amount deposit_txn with
        | .ok r =>
          { acct := r.acct, deposit_txn := r.deposit_txn, loan := some r.loan,
            repay_txn := r.repay_txn, repayment := r.repayment }
        | .error _ =>
          { acct := acct1, deposit_txn := deposit_txn, loan := some loan,
            repay_txn := none, repayment := none }
      else
        { acct := acct1, deposit_txn := deposit_txn, loan := some loan,
          repay_txn := none, repayment := none }
    | none =>
      { acct := acct1, deposit_txn := deposit_txn, loan := none,
        repay_txn := none, repayment := none }
  else
    { acct := acct1, deposit_txn := deposit_txn, loan := active_loan,
      repay_txn := none, repayment := none }

/-! ### members/models.py: loan eligibility -/

/-- A member's loan row as seen by the eligibility rules: the amounts
entering `get_outstanding_loan_amount` (`outstanding_balance`, which
returns `total_balance` for active/approved loans) and
`approved_amount or requested_amount`. -/
structure LoanSnap where
  requested_amount : ℚ
  approved_amount : Option ℚ
  total_balance : ℚ
deriving DecidableEq, Repr

/-- A member snapshot for `can_apply_for_loan`: the committed monthly
savings, whether a savings account exists, its total historic deposits
(`get_total_savings`, compulsory + voluntary), and the member's loans
with status in {active, approved}. -/
structure MemberSnap where
  monthly_savings : ℚ
  has_savings_account : Bool
  total_deposits : ℚ
  active_loans : List LoanSnap
deriving DecidableEq, Repr

/-- Member.maximum_loan_amount: total deposits times two, zero when
the member has no savings account. -/
def maximum_loan_amount (m : MemberSnap) : ℚ :=
  if m.has_savings_account then m.total_deposits * 2 else 0

/-- Member.get_outstanding_loan_amount: sum of `outstanding_balance`
over the member's active/approved loans. -/
def get_outstanding_loan_amount (m : MemberSnap) : ℚ :=
  (m.active_loans.map (·.total_balance)).sum

/-- Member.can_repay_within_22_months: false on a non-positive monthly
commitment, otherwise `monthly_savings >= (amount * 1.10) / 22`. -/
def can_repay_within_22_months (m : MemberSnap) (loan_amount : ℚ) : Bool :=
  if m.monthly_savings ≤ 0 then false
  else decide (loan_amount * (11/10) / 22 ≤ m.monthly_savings)

/-- Python's `loan.approved_amount or loan.requested_amount`: the
requested amount stands in when the approved amount is NULL or zero
(both falsy). -/
def approved_or_requested (l : LoanSnap) : ℚ :=
  match l.approved_amount with
  | none => l.requested_amount
  | some a => if a = 0 then l.requested_amount else a

/-- Sum of `approved_amount or requested_amount` over the member's
active/approved loans (the `total_borrowed` of the 85% gate). -/
def total_borrowed (m : MemberSnap) : ℚ :=
  (m.active_loans.map approved_or_requested).sum

/-- The rejection message of eligibility rule 1 (the source formats the
maximum amount into it; the text is abbreviated here). -/
def msg_exceeds_maximum : String := "Total loan amount would exceed maximum"

/-- The rejection message of eligibility rule 2 (abbreviated). -/
def msg_cannot_repay : String := "Cannot repay loan within 22 months"

/-- The rejection message of eligibility rule 3 (abbreviated). -/
def msg_must_pay_85 : String := "Must pay at least 85% of outstanding loan"

/-- Member.can_apply_for_loan: the three eligibility rules in source
order, first failure winning. -/
def can_apply_for_loan (m : MemberSnap) (requested_amount : ℚ) :
    Bool × String :=
  let outstanding_amount := get_outstanding_loan_amount m
  let total_after_loan := outstanding_amount + requested_amount
  if maximum_loan_amount m < total_after_loan then
    (false, msg_exceeds_maximum)
  else if ¬ can_repay_within_22_months m requested_amount then
    (false, msg_cannot_repay)
  else if 0 < outstanding_amount then
    let borrowed := total_borrowed m
    let total_paid := borrowed - outstanding_amount
    let paid_percentage := if 0 < borrowed then total_paid / borrowed * 100 else 0
    if paid_percentage < 85 then (false, msg_must_pay_85)
    else (true, "Loan application approved")
  else (true, "Loan application approved")

/-! ### Cooperative-balance aggregates

The building blocks of the three inline balance computations
(loans/views.disburse_loan, dashboard/views.dashboard_home,
transactions/views.calculate_cooperative_balance). -/

/-- `SavingsAccount.objects.aggregate(Sum('balance'))`. -/
def savings_balances_total (st : DBState) : ℚ :=
  (st.savings_accounts.map (·.balance)).sum

/-- `Loan.objects.filter(status='active')`. -/
def active_loans_of (st : DBState) : List Loan :=
  st.loans.filter (fun l => l.status = .active)

/-- `Loan.objects.filter(status='active').aggregate(Sum('approved_amount'))`
(SQL `SUM` skips NULLs). -/
def active_approved_amount_total (st : DBState) : ℚ :=
  ((active_loans_of st).map (fun l => l.approved_amount.getD 0)).sum

/-- `LoanRepayment.objects.aggregate(Sum('interest_amount'))` — note:
over ALL repayment rows, with no status filter. -/
def repayment_interest_total (st : DBState) : ℚ :=
  (st.loan_repayments.map (·.interest_amount)).sum

/-- `Member.regular_members().aggregate(Sum('registration_fee_amount'))`. -/
def registration_fees_total (st : DBState) : ℚ :=
  ((st.members.filter (·.is_regular)).map (·.registration_fee_amount)).sum

/-- Income transactions excluding `description__icontains='registration'`
(the disbursement pre-check's `other_income`; no status filter). -/
def income_excl_registration_total (st : DBState) : ℚ :=
  ((st.transactions.filter (fun t =>
      t.transaction_type = .income ∧ ¬ t.desc_has_registration)).map (·.amount)).sum

/-- Completed expense transactions. -/
def completed_expenses_total (st : DBState) : ℚ :=
  ((st.transactions.filter (fun t =>
      t.transaction_type = .expense ∧ t.status = .completed)).map (·.amount)).sum

/-- The available balance the disbursement pre-check computes inline
(loans/views.py lines 513-555): member savings MINUS the full
`approved_amount` of active loans, plus all repayment interest,
registration fees and income excluding only 'registration'
descriptions, minus completed expenses. -/
def disburse_available_balance (st : DBState) : ℚ :=
  savings_balances_total st - active_approved_amount_total st +
    repayment_interest_total st + registration_fees_total st +
    income_excl_registration_total st - completed_expenses_total st

/-- Outcome tag of one POST to disburse_loan. -/
inductive DisburseOutcome where
  | notApproved        -- status != 'approved'
  | insufficientBalance
  | noApprovedAmount   -- `if not loan.approved_amount` (None or 0)
  | ledgerError        -- inner except: caught, state still committed
  | success
deriving DecidableEq, Repr

/-- The balanced double-entry posting of a successful disbursement:
debit Loans-Receivable and credit Cooperative-Cash, both equal to the
approved amount. -/
structure DisbLedger where
  txn_amount : ℚ
  debit_loans_receivable : ℚ
  credit_cooperative_cash : ℚ
deriving DecidableEq, Repr

/-- The rows as committed when the POST returns. -/
structure DisburseResult where
  outcome : DisburseOutcome
  loan : Loan
  acct : Option SavingsAccount
  collateral_txn : Option SavingsTxn
  ledger : Option DisbLedger
deriving DecidableEq, Repr

/-- loans.views.disburse_loan POST path over a database snapshot, the
target loan and the member's savings account (if any). -/
def disburse_loan (st : DBState) (loan : Loan) (acct : Option SavingsAccount)
    (ledger_ok : Bool) : DisburseResult :=
  if loan.status ≠ .approved then
    { outcome := .notApproved, loan := loan, acct := acct,
      collateral_txn := none, ledger := none }
  else
    let available_balance := disburse_available_balance st
    match loan.approved_amount with
    | none =>
      -- `available_balance < loan.approved_amount` raises on None and the
      -- outer except rolls the (still write-free) transaction back.
      { outcome := .noApprovedAmount, loan := loan, acct := acct,
        collateral_txn := none, ledger := none }
    | some a =>
      if available_balance < a then
        { outcome := .insufficientBalance, loan := loan, acct := acct,
          collateral_txn := none, ledger := none }
      else if a = 0 then
        -- `if not loan.approved_amount` also rejects a zero amount.
        { outcome := .noApprovedAmount, loan := loan, acct := acct,
          collateral_txn := none, ledger := none }
      else
        let loan1 : Loan :=
          { loan with
              principal_balance := a
              interest_balance := a * (1/10)   -- Decimal('0.10') of principal
              total_balance := a + a * (1/10)
              status := .active }
        -- (The source then re-reads the account and only *messages* an
        -- error if its balance grew — a check that changes no state and
        -- can never fire, since set_loan_collateral leaves the balance
        -- alone; it is not modelled.)
        let (acct1, collateral_txn, _collateral_set) := set_loan_collateral acct
        if ledger_ok then
          { outcome := .success, loan := loan1, acct := acct1,
            collateral_txn := collateral_txn,
            ledger := some { txn_amount := a, debit_loans_receivable := a,
                             credit_cooperative_cash := a } }
        else
          -- the inner `except` swallows the failure: loan and collateral
          -- writes commit, no ledger rows exist.
          { outcome := .ledgerError, loan := loan1, acct := acct1,
            collateral_txn := collateral_txn, ledger := none }

/-! ### Concrete rows used to instantiate the theorems

A disbursed 100-unit loan (10% interest added at disbursement), the
member's savings account with the pre-existing balance held as
collateral, and the rows each repayment path produces on it. -/

/-- An active loan right after disbursement of an approved 100. -/
def loanW : Loan :=
  { status := .active, requested_amount := 100, approved_amount := some 100,
    principal_balance := 100, interest_balance := 10, total_balance := 110 }

/-- The member's account: 500 of pre-existing savings held as collateral. -/
def acctW : SavingsAccount :=
  { balance := 500, collateral_amount := 500, available_balance := 0,
    has_active_loan := true }

/-- The member's account just after a 30-unit deposit on a 100-balance
account (the state `process_loan_repayment_from_deposit` sees). -/
def dacctW : SavingsAccount :=
  { balance := 130, collateral_amount := 100, available_balance := 30,
    has_active_loan := true }

/-- The original 30-unit voluntary deposit row before the auto-split. -/
def depW : SavingsTxn :=
  { transaction_type := .voluntary, amount := 30, balance_before := 100,
    balance_after := 130, status := .completed, is_loan_repayment := false,
    repayment_principal := 0, repayment_interest := 0 }

/-- What the auto-split leaves behind for a 30-unit deposit against
`loanW`: 10 to interest, 20 to principal, deposit rewritten to 0. -/
def dresW : DepositRepayResult :=
  { acct := { balance := 100, collateral_amount := 100, available_balance := 0,
              has_active_loan := true }
    loan := { status := .active, requested_amount := 100,
              approved_amount := some 100, principal_balance := 80,
              interest_balance := 0, total_balance := 80 }
    repay_txn := some
      { transaction_type := .loan_repayment, amount := 30, balance_before := 130,
        balance_after := 100, status := .completed, is_loan_repayment := true,
        repayment_principal := 20, repayment_interest := 10 }
    deposit_txn :=
      { transaction_type := .voluntary, amount := 0, balance_before := 100,
        balance_after := 100, status := .completed, is_loan_repayment := false,
        repayment_principal := 0, repayment_interest := 0 }
    repayment := some
      { amount := 30, principal_amount := 20, interest_amount := 10,
        balance_before := 110, balance_after := 80, status := .completed } }

/-- The LoanRepayment row of that auto-split. -/
def drepW : LoanRepayment :=
  { amount := 30, principal_amount := 20, interest_amount := 10,
    balance_before := 110, balance_after := 80, status := .completed }

/-- Account with 100 of new savings above a 500 collateral. -/
def sacctW : SavingsAccount :=
  { balance := 600, collateral_amount := 500, available_balance := 100,
    has_active_loan := true }

/-- `sacctW` after a 40-unit repayment from savings. -/
def sacctW1 : SavingsAccount :=
  { balance := 560, collateral_amount := 500, available_balance := 60,
    has_active_loan := true }

/-- `loanW` after a 40-unit repayment (10 interest, 30 principal). -/
def sloanW1 : Loan :=
  { status := .active, requested_amount := 100, approved_amount := some 100,
    principal_balance := 70, interest_balance := 0, total_balance := 70 }

/-- The `loan_repayment` savings row of that repayment from savings. -/
def stxnW : SavingsTxn :=
  { transaction_type := .loan_repayment, amount := 40, balance_before := 600,
    balance_after := 560, status := .completed, is_loan_repayment := true,
    repayment_principal := 30, repayment_interest := 10 }

/-- The LoanRepayment row of that repayment from savings. -/
def srepW : LoanRepayment :=
  { amount := 40, principal_amount := 30, interest_amount := 10,
    balance_before := 110, balance_after := 70, status := .completed }

/-- An approved loan awaiting disbursement: approved for 100 while 120
was requested. -/
def loanAppW : Loan :=
  { status := .approved, requested_amount := 120, approved_amount := some 100,
    principal_balance := 0, interest_balance := 0, total_balance := 0 }

/-- A free savings account holding 1000. -/
def freeAcctW : SavingsAccount :=
  { balance := 1000, collateral_amount := 0, available_balance := 1000,
    has_active_loan := false }

/-- A database snapshot with 1000 of member savings and nothing else:
plenty of available balance for a 100-unit disbursement. -/
def stW : DBState :=
  { savings_accounts := [freeAcctW]
    loans := []
    loan_repayments := []
    members := []
    transactions := []
    savings_transactions := [] }

/-- The member of the spec's eligibility scenario: 150000 committed
monthly, 200000 of historic deposits, no outstanding loans. -/
def mW : MemberSnap :=
  { monthly_savings := 150000, has_savings_account := true,
    total_deposits := 200000, active_loans := [] }

/-- An account whose whole 100 balance is collateral for an active
loan: the state a depositor with an active loan is in. -/
def acctC5 : SavingsAccount :=
  { balance := 100, collateral_amount := 100, available_balance := 0,
    has_active_loan := true }

/-- An account with a zero balance and no active loan: the state of a
member who had nothing saved when their loan was disbursed. -/
def zeroAcctW : SavingsAccount :=
  { balance := 0, collateral_amount := 0, available_balance := 0,
    has_active_loan := false }

/-! ### Helper lemmas on the interest-first split -/

/-- Capping an amount at `interest + principal` does not change the
interest portion of the split. -/
theorem min_cap_interest (a i p : ℚ) (hp : 0 ≤ p) :
    min (min a (i + p)) i = min a i := by
  rw [min_assoc, min_eq_right (le_add_of_nonneg_right hp)]

/-- Capping an amount at `interest + principal` does not change the
principal portion of the split either. -/
theorem min_cap_principal (a i p : ℚ) (hp : 0 ≤ p) :
    min (min a (i + p) - min (min a (i + p)) i) p = min (a - min a i) p := by
  rcases le_or_lt a (i + p) with h | h
  · rw [min_eq_left h]
  · have hii : min (i + p) i = i := min_eq_right (le_add_of_nonneg_right hp)
    have hmini : min a i = i :=
      min_eq_right ((le_add_of_nonneg_right hp).trans h.le)
    rw [min_eq_right h.le, hii, hmini, add_sub_cancel_left]
    have hpa : p ≤ a - i := by linarith
    rw [min_self, min_eq_right hpa]

/-- The interest-first split sums to the amount capped at the
outstanding total. -/
theorem interest_first_split_sum (a i p : ℚ) (hp : 0 ≤ p) :
    min a i + min (a - min a i) p = min a (i + p) := by
  rcases le_or_lt a i with h | h
  · rw [min_eq_left h, sub_self, min_eq_left hp,
      min_eq_left (h.trans (le_add_of_nonneg_right hp)), add_zero]
  · rw [min_eq_right h.le]
    rcases le_or_lt (a - i) p with h2 | h2
    · rw [min_eq_left h2, min_eq_left (by linarith : a ≤ i + p)]
      ring
    · rw [min_eq_right h2.le, min_eq_right (by linarith : i + p ≤ a)]

/-- The interest-first split, written principal part first. -/
theorem split_sum_comm (a i p : ℚ) (hp : 0 ≤ p) :
    min (a - min a i) p + min a i = min a (i + p) := by
  rw [add_comm]
  exact interest_first_split_sum a i p hp

/-- Splitting an amount already capped at the outstanding total sums
back to the capped amount. -/
theorem split_sum_capped (a i p : ℚ) (hp : 0 ≤ p) :
    min (min a (i + p) - min (min a (i + p)) i) p + min (min a (i + p)) i =
      min a (i + p) := by
  rw [add_comm, interest_first_split_sum (min a (i + p)) i p hp,
    min_eq_left (min_le_right a (i + p))]

/-! ### C2: interest-first allocation on every repayment path -/

/-- C2: on all three repayment paths — the manual staff repayment
(loans.views.loan_repayments), the automatic repayment out of a new
deposit (process_loan_repayment_from_deposit) and the repayment from
savings (process_loan_repayment_from_savings) — the created
LoanRepayment allocates interest first:
`interest_amount = min(event amount, interest_balance before)` and
`principal_amount = min(event amount − interest_amount,
principal_balance before)`, and the loan's interest and principal
balances decrement by exactly those amounts.  On the deposit path the
interest and principal portions moreover equal the split of the raw
deposit amount, so capping at the outstanding total changes neither. -/
theorem repayment_allocation_interest_first
    (loan : Loan) (acct : SavingsAccount) (amount : ℚ)
    (dacct : SavingsAccount) (dloan : Loan) (damount : ℚ) (dep : SavingsTxn)
    (dres : DepositRepayResult) (drep : LoanRepayment)
    (sacct : SavingsAccount) (sloan : Loan) (samount : ℚ)
    (sacct' : SavingsAccount) (sloan' : Loan) (stxn : SavingsTxn)
    (srep : LoanRepayment)
    (hdp : 0 ≤ dloan.principal_balance)
    (hdok : process_loan_repayment_from_deposit dacct dloan damount dep = .ok dres)
    (hdrep : dres.repayment = some drep)
    (hsok : process_loan_repayment_from_savings sacct sloan samount =
      .ok (sacct', sloan', stxn, srep)) :
    -- manual path
    ((loan_repayments_post loan acct amount).2.2.interest_amount =
        min amount loan.interest_balance ∧
      (loan_repayments_post loan acct amount).2.2.principal_amount =
        min (amount - (loan_repayments_post loan acct amount).2.2.interest_amount)
          loan.principal_balance ∧
      (loan_repayments_post loan acct amount).1.interest_balance =
        loan.interest_balance -
          (loan_repayments_post loan acct amount).2.2.interest_amount ∧
      (loan_repayments_post loan acct amount).1.principal_balance =
        loan.principal_balance -
          (loan_repayments_post loan acct amount).2.2.principal_amount) ∧
    -- automatic repayment from a deposit
    (drep.interest_amount = min drep.amount dloan.interest_balance ∧
      drep.interest_amount = min damount dloan.interest_balance ∧
      drep.principal_amount =
        min (drep.amount - drep.interest_amount) dloan.principal_balance ∧
      drep.principal_amount =
        min (damount - min damount dloan.interest_balance)
          dloan.principal_balance ∧
      dres.loan.interest_balance = dloan.interest_balance - drep.interest_amount ∧
      dres.loan.principal_balance =
        dloan.principal_balance - drep.principal_amount) ∧
    -- repayment from savings
    (srep.interest_amount = min srep.amount sloan.interest_balance ∧
      srep.principal_amount =
        min (srep.amount - srep.interest_amount) sloan.principal_balance ∧
      sloan'.interest_balance = sloan.interest_balance - srep.interest_amount ∧
      sloan'.principal_balance = sloan.principal_balance - srep.principal_amount) := by
  refine ⟨⟨rfl, rfl, rfl, rfl⟩, ?_, ?_⟩
  · simp only [process_loan_repayment_from_deposit] at hdok
    split at hdok
    · exact absurd hdok (by simp)
    · split at hdok
      · exact absurd hdok (by simp)
      · split at hdok
        · split at hdok
          all_goals
            cases hdok
            simp only [Option.some.injEq] at hdrep
            subst hdrep
            refine ⟨rfl, ?_, rfl, ?_, rfl, rfl⟩
            · exact min_cap_interest damount dloan.interest_balance
                dloan.principal_balance hdp
            · exact min_cap_principal damount dloan.interest_balance
                dloan.principal_balance hdp
        · cases hdok
          simp at hdrep
  · simp only [process_loan_repayment_from_savings] at hsok
    split at hsok
    · exact absurd hsok (by simp)
    · split at hsok
      · exact absurd hsok (by simp)
      · split at hsok
        · exact absurd hsok (by simp)
        · split at hsok <;>
          · simp only [Except.ok.injEq, Prod.mk.injEq] at hsok
            obtain ⟨h1, h2, h3, h4⟩ := hsok
            subst h2
            subst h4
            exact ⟨rfl, rfl, rfl, rfl⟩

/-- C2 witness: the allocation theorem instantiated on a manual 30-unit
repayment, a 30-unit deposit auto-split and a 40-unit repayment from
savings, all against the freshly disbursed loan `loanW`. -/
theorem repayment_allocation_interest_first_witness :
    ((loan_repayments_post loanW acctW 30).2.2.interest_amount =
        min 30 loanW.interest_balance ∧
      (loan_repayments_post loanW acctW 30).2.2.principal_amount =
        min (30 - (loan_repayments_post loanW acctW 30).2.2.interest_amount)
          loanW.principal_balance ∧
      (loan_repayments_post loanW acctW 30).1.interest_balance =
        loanW.interest_balance -
          (loan_repayments_post loanW acctW 30).2.2.interest_amount ∧
      (loan_repayments_post loanW acctW 30).1.principal_balance =
        loanW.principal_balance -
          (loan_repayments_post loanW acctW 30).2.2.principal_amount) ∧
    (drepW.interest_amount = min drepW.amount loanW.interest_balance ∧
      drepW.interest_amount = min 30 loanW.interest_balance ∧
      drepW.principal_amount =
        min (drepW.amount - drepW.interest_amount) loanW.principal_balance ∧
      drepW.principal_amount =
        min (30 - min 30 loanW.interest_balance) loanW.principal_balance ∧
      dresW.loan.interest_balance =
        loanW.interest_balance - drepW.interest_amount ∧
      dresW.loan.principal_balance =
        loanW.principal_balance - drepW.principal_amount) ∧
    (srepW.interest_amount = min srepW.amount loanW.interest_balance ∧
      srepW.principal_amount =
        min (srepW.amount - srepW.interest_amount) loanW.principal_balance ∧
      sloanW1.interest_balance = loanW.interest_balance - srepW.interest_amount ∧
      sloanW1.principal_balance =
        loanW.principal_balance - srepW.principal_amount) :=
  repayment_allocation_interest_first loanW acctW 30 dacctW loanW 30 depW
    dresW drepW sacctW loanW 40 sacctW1 sloanW1 stxnW srepW
    (by norm_num [loanW])
    (by norm_num [process_loan_repayment_from_deposit, dacctW, loanW, depW,
      dresW, update_available_balance, min_def])
    (by rfl)
    (by norm_num [process_loan_repayment_from_savings, sacctW, loanW,
      sacctW1, sloanW1, stxnW, srepW, get_loan_repayment_amount,
      update_available_balance, min_def])

/-- What a successful auto-split run writes, as a function of its
inputs: the account balance drops by the loan portion, the
`loan_repayment` savings row records that portion, and — for
compulsory/voluntary deposits — the original deposit row is rewritten
to the savings portion on top of its original `balance_before`. -/
theorem process_deposit_spec (acct : SavingsAccount) (loan : Loan) (A : ℚ)
    (dep : SavingsTxn) (res : DepositRepayResult)
    (hal : acct.has_active_loan = true) (hA : 0 < A)
    (hportion : 0 < min A (loan.interest_balance + loan.principal_balance))
    (hres : process_loan_repayment_from_deposit acct loan A dep = .ok res) :
    res.acct.balance =
      acct.balance - min A (loan.interest_balance + loan.principal_balance) ∧
    res.repay_txn.map (·.amount) =
      some (min A (loan.interest_balance + loan.principal_balance)) ∧
    res.repay_txn.map (·.transaction_type) = some .loan_repayment ∧
    ((dep.transaction_type = .compulsory ∨ dep.transaction_type = .voluntary) →
      res.deposit_txn.amount =
        A - min A (loan.interest_balance + loan.principal_balance) ∧
      res.deposit_txn.balance_after =
        dep.balance_before +
          (A - min A (loan.interest_balance + loan.principal_balance))) := by
  simp only [process_loan_repayment_from_deposit] at hres
  rw [if_neg (by simp [hal]), if_neg (not_le.mpr hA), if_pos hportion] at hres
  split at hres <;> (try split at hres)
  all_goals
    cases hres
    refine ⟨rfl, rfl, rfl, fun hty => ?_⟩
    first
      | exact ⟨rfl, rfl⟩
      | exact absurd hty (by assumption)

/-! ### C5: the deposit auto-split and the rewritten deposit row -/

/-- C5 counterexample: a member holding `acctC5` (100 of savings, all
collateral, active loan flag set) deposits 30 typed 'interest' — one
of the three deposit types the form offers — against the 110-unit
loan `loanW`.  The whole 30 goes to the loan and the balance ends at
100, but the original deposit row is NOT rewritten: its amount stays
30 (the savings portion is 0) and its `balance_after` stays 130 even
though the account holds 100, because the rewrite clause only covers
'compulsory' and 'voluntary' deposits. -/
theorem deposit_auto_split_counterexample :
    (savings_deposit_form_save (some acctC5) .interest 30 (some loanW)).acct.balance = 100 ∧
    (savings_deposit_form_save (some acctC5) .interest 30 (some loanW)).repay_txn.map
      (·.amount) = some 30 ∧
    (savings_deposit_form_save (some acctC5) .interest 30 (some loanW)).deposit_txn.amount = 30 ∧
    (savings_deposit_form_save (some acctC5) .interest 30 (some loanW)).deposit_txn.balance_after = 130 ∧
    (savings_deposit_form_save (some acctC5) .interest 30 (some loanW)).deposit_txn.amount ≠
      30 - min 30 (loanW.interest_balance + loanW.principal_balance) := by
  have hni : ¬ (SavTxnType.interest = SavTxnType.compulsory ∨
      SavTxnType.interest = SavTxnType.voluntary) := by decide
  refine ⟨?_, ?_, ?_, ?_, ?_⟩ <;>
    norm_num [savings_deposit_form_save, process_loan_repayment_from_deposit,
      acctC5, loanW, update_available_balance, min_def, hni]

/-- C5 (amended): a deposit of `A > 0` by a member with the active-loan
flag set, against an active loan with outstanding
`interest_balance + principal_balance > 0` (and `total_balance` equal
to that sum), is split as `loan_portion = min(A, outstanding)` /
`savings_portion = A - loan_portion`: the savings balance grows by
exactly the savings portion, a `loan_repayment` savings row of the
loan portion is created (the portion is positive), and — when the
deposit's type is 'compulsory' or 'voluntary', the only types the
rewrite clause covers — the original deposit row is rewritten to
`amount = savings_portion` and `balance_after = original
balance_before + savings_portion`. -/
theorem deposit_auto_split_amended
    (acct : SavingsAccount) (loan : Loan) (ttype : SavTxnType) (A : ℚ)
    (hal : acct.has_active_loan = true) (hA : 0 < A)
    (hout : 0 < loan.interest_balance + loan.principal_balance)
    (htb : loan.total_balance = loan.interest_balance + loan.principal_balance)
    (hty : ttype = .compulsory ∨ ttype = .voluntary) :
    (savings_deposit_form_save (some acct) ttype A (some loan)).acct.balance =
      acct.balance +
        (A - min A (loan.interest_balance + loan.principal_balance)) ∧
    (savings_deposit_form_save (some acct) ttype A (some loan)).deposit_txn.amount =
      A - min A (loan.interest_balance + loan.principal_balance) ∧
    (savings_deposit_form_save (some acct) ttype A (some loan)).deposit_txn.balance_after =
      acct.balance +
        (A - min A (loan.interest_balance + loan.principal_balance)) ∧
    (savings_deposit_form_save (some acct) ttype A (some loan)).repay_txn.map
      (·.amount) = some (min A (loan.interest_balance + loan.principal_balance)) ∧
    (savings_deposit_form_save (some acct) ttype A (some loan)).repay_txn.map
      (·.transaction_type) = some .loan_repayment ∧
    0 < min A (loan.interest_balance + loan.principal_balance) := by
  have hout' : 0 < loan.total_balance := by rw [htb]; exact hout
  have hportion : 0 < min A (loan.interest_balance + loan.principal_balance) :=
    lt_min hA hout
  have hform : savings_deposit_form_save (some acct) ttype A (some loan) =
      match process_loan_repayment_from_deposit
          (update_available_balance { acct with balance := acct.balance + A })
          loan A
          { transaction_type := ttype, amount := A,
            balance_before := acct.balance, balance_after := acct.balance + A,
            status := .completed, is_loan_repayment := false,
            repayment_principal := 0, repayment_interest := 0 } with
        | .ok r =>
          { acct := r.acct, deposit_txn := r.deposit_txn, loan := some r.loan,
            repay_txn := r.repay_txn, repayment := r.repayment }
        | .error _ =>
          { acct := update_available_balance
              { acct with balance := acct.balance + A },
            deposit_txn :=
              { transaction_type := ttype, amount := A,
                balance_before := acct.balance,
                balance_after := acct.balance + A, status := .completed,
                is_loan_repayment := false, repayment_principal := 0,
                repayment_interest := 0 },
            loan := some loan, repay_txn := none, repayment := none } := by
    simp only [savings_deposit_form_save, update_available_balance,
      Option.getD_some, hal, if_true, if_pos hout']
  rcases hres : process_loan_repayment_from_deposit
      (update_available_balance { acct with balance := acct.balance + A })
      loan A
      { transaction_type := ttype, amount := A,
        balance_before := acct.balance, balance_after := acct.balance + A,
        status := .completed, is_loan_repayment := false,
        repayment_principal := 0, repayment_interest := 0 } with e | r0
  · -- the helper cannot fail here: the flag is set and the amount positive
    exfalso
    simp only [process_loan_repayment_from_deposit] at hres
    rw [if_neg (by simp [update_available_balance, hal]),
      if_neg (not_le.mpr hA), if_pos hportion] at hres
    split at hres <;> exact absurd hres (by simp)
  · have hspec := process_deposit_spec
      (update_available_balance { acct with balance := acct.balance + A })
      loan A
      { transaction_type := ttype, amount := A,
        balance_before := acct.balance, balance_after := acct.balance + A,
        status := .completed, is_loan_repayment := false,
        repayment_principal := 0, repayment_interest := 0 } r0
      (by simp [update_available_balance, hal]) hA hportion hres
    obtain ⟨hb, hamt, htyp, hrw⟩ := hspec
    obtain ⟨hrw1, hrw2⟩ := hrw (by simpa using hty)
    rw [hform, hres]
    refine ⟨?_, ?_, ?_, ?_, ?_, hportion⟩
    · simpa [update_available_balance, sub_eq_iff_eq_add] using
        (by rw [hb]; simp [update_available_balance]; ring :
          r0.acct.balance = acct.balance +
            (A - min A (loan.interest_balance + loan.principal_balance)))
    · simpa using hrw1
    · simpa using hrw2
    · simpa using hamt
    · simpa using htyp

/-- C5 witness: the amended auto-split theorem instantiated on a
30-unit voluntary deposit by the holder of `acctC5` against the
110-outstanding loan `loanW`. -/
theorem deposit_auto_split_amended_witness :
    (savings_deposit_form_save (some acctC5) .voluntary 30 (some loanW)).acct.balance =
      acctC5.balance +
        (30 - min 30 (loanW.interest_balance + loanW.principal_balance)) ∧
    (savings_deposit_form_save (some acctC5) .voluntary 30 (some loanW)).deposit_txn.amount =
      30 - min 30 (loanW.interest_balance + loanW.principal_balance) ∧
    (savings_deposit_form_save (some acctC5) .voluntary 30 (some loanW)).deposit_txn.balance_after =
      acctC5.balance +
        (30 - min 30 (loanW.interest_balance + loanW.principal_balance)) ∧
    (savings_deposit_form_save (some acctC5) .voluntary 30 (some loanW)).repay_txn.map
      (·.amount) = some (min 30 (loanW.interest_balance + loanW.principal_balance)) ∧
    (savings_deposit_form_save (some acctC5) .voluntary 30 (some loanW)).repay_txn.map
      (·.transaction_type) = some .loan_repayment ∧
    0 < min 30 (loanW.interest_balance + loanW.principal_balance) :=
  deposit_auto_split_amended acctC5 loanW .voluntary 30 (by rfl) (by norm_num)
    (by norm_num [loanW]) (by norm_num [loanW]) (Or.inr rfl)

/-! ### C1: the cooperative-balance formula across its call sites -/

/-- C7: for a positive requested amount, `can_apply_for_loan` is
exactly the spec's decision chain: reject when outstanding + requested
exceeds twice the total deposits; otherwise reject when the monthly
commitment is below `(requested * 1.10) / 22`; otherwise, when any
outstanding balance exists, reject unless at least 85% of the total
borrowed has been repaid; otherwise return
`(True, "Loan application approved")`.  (The source's
`maximum_loan_amount` is zero for a member without a savings account,
which coincides with twice their — necessarily zero — deposits; the
85% comparison is stated multiplicatively, equivalent to the source's
percentage division for a non-negative borrowed total.) -/
theorem can_apply_rules_in_order
    (m : MemberSnap) (a : ℚ) (ha : 0 < a)
    (hacc : m.has_savings_account = false → m.total_deposits = 0)
    (hb : 0 ≤ total_borrowed m) :
    can_apply_for_loan m a =
      (if 2 * m.total_deposits < get_outstanding_loan_amount m + a then
        (false, msg_exceeds_maximum)
      else if m.monthly_savings < a * (11/10) / 22 then
        (false, msg_cannot_repay)
      else if 0 < get_outstanding_loan_amount m ∧
          total_borrowed m - get_outstanding_loan_amount m <
            (85/100) * total_borrowed m then
        (false, msg_must_pay_85)
      else (true, "Loan application approved")) := by
  have hmax : maximum_loan_amount m = 2 * m.total_deposits := by
    unfold maximum_loan_amount
    by_cases hsa : m.has_savings_account
    · rw [if_pos hsa, mul_comm]
    · rw [if_neg hsa, hacc (by simpa using hsa)]
      ring
  have hreq : 0 < a * (11/10) / 22 := by positivity
  have hcr : (¬ can_repay_within_22_months m a = true) ↔
      m.monthly_savings < a * (11/10) / 22 := by
    unfold can_repay_within_22_months
    by_cases hms : m.monthly_savings ≤ 0
    · simp only [if_pos hms]
      constructor
      · intro _
        linarith
      · intro _ h
        cases h
    · simp only [if_neg hms, decide_eq_true_eq, not_le]
  have hpct : 0 < get_outstanding_loan_amount m →
      ((if 0 < total_borrowed m then
          (total_borrowed m - get_outstanding_loan_amount m) /
            total_borrowed m * 100
        else 0) < 85 ↔
        total_borrowed m - get_outstanding_loan_amount m <
          (85/100) * total_borrowed m) := by
    intro ho
    by_cases hbp : 0 < total_borrowed m
    · rw [if_pos hbp, div_mul_eq_mul_div, div_lt_iff hbp]
      constructor <;> intro h <;> linarith
    · have hb0 : total_borrowed m = 0 := le_antisymm (not_lt.mp hbp) hb
      rw [if_neg hbp, hb0]
      constructor <;> intro h <;> linarith
  simp only [can_apply_for_loan]
  rw [hmax]
  by_cases c1 : 2 * m.total_deposits < get_outstanding_loan_amount m + a
  · rw [if_pos c1, if_pos c1]
  · rw [if_neg c1, if_neg c1, if_congr hcr rfl rfl]
    by_cases c2 : m.monthly_savings < a * (11/10) / 22
    · rw [if_pos c2, if_pos c2]
    · rw [if_neg c2, if_neg c2]
      by_cases c3 : 0 < get_outstanding_loan_amount m
      · rw [if_pos c3]
        by_cases c4 : total_borrowed m - get_outstanding_loan_amount m <
            (85/100) * total_borrowed m
        · rw [if_pos ((hpct c3).mpr c4), if_pos ⟨c3, c4⟩]
        · rw [if_neg (fun h => c4 ((hpct c3).mp h)), if_neg (fun h => c4 h.2)]
      · rw [if_neg c3, if_neg (fun h => c3 h.1)]

/-- C7 witness: the spec's own scenario — monthly savings 150000,
total deposits 200000, no outstanding loans, requesting 300000 —
is approved. -/
theorem can_apply_rules_in_order_witness :
    can_apply_for_loan mW 300000 =
      (if 2 * mW.total_deposits < get_outstanding_loan_amount mW + 300000 then
        (false, msg_exceeds_maximum)
      else if mW.monthly_savings < 300000 * (11/10) / 22 then
        (false, msg_cannot_repay)
      else if 0 < get_outstanding_loan_amount mW ∧
          total_borrowed mW - get_outstanding_loan_amount mW <
            (85/100) * total_borrowed mW then
        (false, msg_must_pay_85)
      else (true, "Loan application approved")) :=
  can_apply_rules_in_order mW 300000 (by norm_num)
    (by intro h; cases h) (by norm_num [total_borrowed, mW])

/-! ### C6: completion trigger and collateral clearing -/

/-- C6: the manual repayment path evaluated at the failing input — a
110-unit staff repayment that fully pays off `loanW` while 500 of the
member's savings is held as collateral (`acctW`).  The loan does
transition to 'completed' with a zero total balance, but the savings
account comes back exactly as it went in: `collateral_amount` is still
500 and `has_active_loan` still set, because the manual path never
calls `clear_collateral`.  By contrast the repayment-from-savings path
(final conjunct, same loan paid off with a 110-unit repayment out of
610 of savings) clears the collateral at exactly this transition. -/
theorem manual_completion_leaves_collateral :
    (loan_repayments_post loanW acctW 110).1.status = .completed ∧
    (loan_repayments_post loanW acctW 110).1.total_balance = 0 ∧
    (loan_repayments_post loanW acctW 110).2.1 = acctW ∧
    acctW.collateral_amount = 500 ∧
    acctW.has_active_loan = true ∧
    process_loan_repayment_from_savings
        { balance := 610, collateral_amount := 500, available_balance := 110,
          has_active_loan := true } loanW 110 =
      .ok ({ balance := 500, collateral_amount := 0, available_balance := 500,
             has_active_loan := false },
           { status := .completed, requested_amount := 100,
             approved_amount := some 100, principal_balance := 0,
             interest_balance := 0, total_balance := 0 },
           { transaction_type := .loan_repayment, amount := 110,
             balance_before := 610, balance_after := 500, status := .completed,
             is_loan_repayment := true, repayment_principal := 100,
             repayment_interest := 10 },
           { amount := 110, principal_amount := 100, interest_amount := 10,
             balance_before := 110, balance_after := 0,
             status := .completed }) := by
  refine ⟨?_, ?_, rfl, rfl, rfl, ?_⟩ <;>
    norm_num [loan_repayments_post, process_loan_repayment_from_savings,
      loanW, get_loan_repayment_amount, update_available_balance,
      clear_collateral, min_def]

/-! ### C3: what a successful disbursement writes -/

/-- C3: disbursing a loan in status 'approved' whose approved amount is
`a` (with the pre-check passing and the ledger step succeeding) sets
`principal_balance = a`, `interest_balance = 0.10 * a`,
`total_balance = principal + interest` and status 'active'; and the
same four values result for any `requested_amount` whatsoever, so the
requested amount plays no role in them. -/
theorem disburse_sets_balances_from_approved
    (st : DBState) (loan : Loan) (acct : Option SavingsAccount) (a : ℚ)
    (hst : loan.status = .approved) (happ : loan.approved_amount = some a)
    (hbal : ¬ disburse_available_balance st < a) (ha : a ≠ 0) :
    (disburse_loan st loan acct true).outcome = .success ∧
    (disburse_loan st loan acct true).loan.principal_balance = a ∧
    (disburse_loan st loan acct true).loan.interest_balance = a * (1/10) ∧
    (disburse_loan st loan acct true).loan.total_balance = a + a * (1/10) ∧
    (disburse_loan st loan acct true).loan.status = .active ∧
    (∀ x : ℚ,
      (disburse_loan st { loan with requested_amount := x } acct true).loan.principal_balance = a ∧
      (disburse_loan st { loan with requested_amount := x } acct true).loan.interest_balance = a * (1/10) ∧
      (disburse_loan st { loan with requested_amount := x } acct true).loan.total_balance = a + a * (1/10) ∧
      (disburse_loan st { loan with requested_amount := x } acct true).loan.status = .active) := by
  refine ⟨?_, ?_, ?_, ?_, ?_, fun x => ⟨?_, ?_, ?_, ?_⟩⟩ <;>
    simp [disburse_loan, hst, happ, hbal, ha]

/-- C3 witness: disbursing `loanAppW` (approved 100, requested 120) on
the 1000-available snapshot `stW`. -/
theorem disburse_sets_balances_from_approved_witness :
    (disburse_loan stW loanAppW none true).outcome = .success ∧
    (disburse_loan stW loanAppW none true).loan.principal_balance = 100 ∧
    (disburse_loan stW loanAppW none true).loan.interest_balance = 100 * (1/10) ∧
    (disburse_loan stW loanAppW none true).loan.total_balance = 100 + 100 * (1/10) ∧
    (disburse_loan stW loanAppW none true).loan.status = .active ∧
    (∀ x : ℚ,
      (disburse_loan stW { loanAppW with requested_amount := x } none true).loan.principal_balance = 100 ∧
      (disburse_loan stW { loanAppW with requested_amount := x } none true).loan.interest_balance = 100 * (1/10) ∧
      (disburse_loan stW { loanAppW with requested_amount := x } none true).loan.total_balance = 100 + 100 * (1/10) ∧
      (disburse_loan stW { loanAppW with requested_amount := x } none true).loan.status = .active) :=
  disburse_sets_balances_from_approved stW loanAppW none 100
    (by rfl) (by rfl)
    (by norm_num [disburse_available_balance, stW, freeAcctW,
      savings_balances_total, active_approved_amount_total, active_loans_of,
      repayment_interest_total, registration_fees_total,
      income_excl_registration_total, completed_expenses_total])
    (by norm_num)

/-! ### C4: disbursement never touches the savings balance -/

/-- C4: on every path through disbursement the member's savings
balance is unchanged: the returned account holds the same `balance` as
the one passed in, and the `collateral` SavingsTransaction (when the
pre-existing savings is locked) records `balance_before =
balance_after = balance` with type 'collateral' — only
`collateral_amount`, `available_balance` and `has_active_loan` are
rewritten, never `balance`. -/
theorem disburse_never_credits_savings
    (st : DBState) (loan : Loan) (acct : Option SavingsAccount)
    (ledger_ok : Bool) :
    ((disburse_loan st loan acct ledger_ok).acct).map (·.balance) =
      acct.map (·.balance) ∧
    ((disburse_loan st loan acct ledger_ok).collateral_txn).elim True
      (fun ct => ct.transaction_type = .collateral ∧
        ct.balance_before = ct.balance_after) := by
  unfold disburse_loan
  split
  · exact ⟨rfl, trivial⟩
  · match happ : loan.approved_amount with
    | none => exact ⟨rfl, trivial⟩
    | some a =>
      simp only
      split
      · exact ⟨rfl, trivial⟩
      · split
        · exact ⟨rfl, trivial⟩
        · rcases acct with _ | s
          · cases ledger_ok <;> exact ⟨rfl, trivial⟩
          · by_cases hs : 0 < s.balance <;>
              cases ledger_ok <;>
              simp [set_loan_collateral, set_collateral,
                update_available_balance, hs]

/-! ### C8: a ledger failure does not roll the disbursement back -/

/-- C8: disbursement evaluated at the failing input — the approved
loan `loanAppW` on the 1000-available snapshot `stW` with the ledger
step failing.  The failure is caught inside the atomic block and the
view returns normally, so the block commits: the loan comes out with
status 'active' and the new balances (principal 100, interest 10,
total 110) while no ledger transaction or entries exist — not rolled
back to status 'approved' with unchanged balances as the claim
requires. -/
theorem disburse_ledger_failure_commits :
    (disburse_loan stW loanAppW none false).outcome = .ledgerError ∧
    (disburse_loan stW loanAppW none false).loan.status = .active ∧
    (disburse_loan stW loanAppW none false).loan.principal_balance = 100 ∧
    (disburse_loan stW loanAppW none false).loan.interest_balance = 10 ∧
    (disburse_loan stW loanAppW none false).loan.total_balance = 110 ∧
    (disburse_loan stW loanAppW none false).ledger = none ∧
    (disburse_loan stW loanAppW none false).loan.status ≠ loanAppW.status := by
  refine ⟨?_, ?_, ?_, ?_, ?_, ?_, ?_⟩ <;>
    norm_num [disburse_loan, loanAppW, set_loan_collateral,
      disburse_available_balance, stW, freeAcctW, savings_balances_total,
      active_approved_amount_total, active_loans_of, repayment_interest_total,
      registration_fees_total, income_excl_registration_total,
      completed_expenses_total] <;> decide

/-! ### C9: principal + interest versus the recorded amount -/

/-- C9 counterexample: a manual staff repayment of 200 against the
110-outstanding loan `loanW` (the form only checks `amount > 0`)
records a LoanRepayment whose `amount` is 200 while
`principal_amount + interest_amount` is only 110, refuting the claim
that the two agree even when the supplied amount exceeds the
outstanding total balance. -/
theorem loan_repayment_sum_counterexample :
    (loan_repayments_post loanW acctW 200).2.2.amount = 200 ∧
    (loan_repayments_post loanW acctW 200).2.2.principal_amount +
        (loan_repayments_post loanW acctW 200).2.2.interest_amount = 110 ∧
    (loan_repayments_post loanW acctW 200).2.2.principal_amount +
        (loan_repayments_post loanW acctW 200).2.2.interest_amount ≠
      (loan_repayments_post loanW acctW 200).2.2.amount := by
  refine ⟨rfl, ?_, ?_⟩ <;>
    norm_num [loan_repayments_post, loanW, min_def]

/-- C9 (amended): every LoanRepayment row satisfies
`principal_amount + interest_amount = min(amount supplied,
interest_balance + principal_balance before)`.  On the deposit
auto-split path the recorded `amount` is itself capped at the
outstanding total, so there the sum equals the recorded amount; on the
manual and savings paths the recorded `amount` is the uncapped figure,
so the sum equals it only when it does not exceed the outstanding
total. -/
theorem loan_repayment_sum_amended
    (loan : Loan) (acct : SavingsAccount) (amount : ℚ)
    (dacct : SavingsAccount) (dloan : Loan) (damount : ℚ) (dep : SavingsTxn)
    (dres : DepositRepayResult) (drep : LoanRepayment)
    (sacct : SavingsAccount) (sloan : Loan) (samount : ℚ)
    (sacct' : SavingsAccount) (sloan' : Loan) (stxn : SavingsTxn)
    (srep : LoanRepayment)
    (hp : 0 ≤ loan.principal_balance)
    (hdp : 0 ≤ dloan.principal_balance)
    (hdok : process_loan_repayment_from_deposit dacct dloan damount dep = .ok dres)
    (hdrep : dres.repayment = some drep)
    (hsp : 0 ≤ sloan.principal_balance)
    (hsok : process_loan_repayment_from_savings sacct sloan samount =
      .ok (sacct', sloan', stxn, srep)) :
    ((loan_repayments_post loan acct amount).2.2.principal_amount +
        (loan_repayments_post loan acct amount).2.2.interest_amount =
      min amount (loan.interest_balance + loan.principal_balance)) ∧
    (drep.principal_amount + drep.interest_amount = drep.amount ∧
      drep.amount = min damount (dloan.interest_balance + dloan.principal_balance)) ∧
    (srep.principal_amount + srep.interest_amount =
      min srep.amount (sloan.interest_balance + sloan.principal_balance)) := by
  refine ⟨split_sum_comm amount loan.interest_balance loan.principal_balance hp,
    ?_, ?_⟩
  · simp only [process_loan_repayment_from_deposit] at hdok
    split at hdok
    · exact absurd hdok (by simp)
    · split at hdok
      · exact absurd hdok (by simp)
      · split at hdok
        · split at hdok
          all_goals
            cases hdok
            simp only [Option.some.injEq] at hdrep
            subst hdrep
            exact ⟨split_sum_capped damount dloan.interest_balance
              dloan.principal_balance hdp, rfl⟩
        · cases hdok
          simp at hdrep
  · simp only [process_loan_repayment_from_savings] at hsok
    split at hsok
    · exact absurd hsok (by simp)
    · split at hsok
      · exact absurd hsok (by simp)
      · split at hsok
        · exact absurd hsok (by simp)
        · split at hsok <;>
          · simp only [Except.ok.injEq, Prod.mk.injEq] at hsok
            obtain ⟨h1, h2, h3, h4⟩ := hsok
            subst h4
            exact split_sum_comm (min samount (get_loan_repayment_amount sacct))
              sloan.interest_balance sloan.principal_balance hsp

/-- C9 witness: the amended sum identity instantiated on a manual
200-unit over-repayment, the 30-unit deposit auto-split and the
40-unit repayment from savings against `loanW`. -/
theorem loan_repayment_sum_amended_witness :
    ((loan_repayments_post loanW acctW 200).2.2.principal_amount +
        (loan_repayments_post loanW acctW 200).2.2.interest_amount =
      min 200 (loanW.interest_balance + loanW.principal_balance)) ∧
    (drepW.principal_amount + drepW.interest_amount = drepW.amount ∧
      drepW.amount = min 30 (loanW.interest_balance + loanW.principal_balance)) ∧
    (srepW.principal_amount + srepW.interest_amount =
      min srepW.amount (loanW.interest_balance + loanW.principal_balance)) :=
  loan_repayment_sum_amended loanW acctW 200 dacctW loanW 30 depW dresW drepW
    sacctW loanW 40 sacctW1 sloanW1 stxnW srepW
    (by norm_num [loanW]) (by norm_num [loanW])
    (by norm_num [process_loan_repayment_from_deposit, dacctW, loanW, depW,
      dresW, update_available_balance, min_def])
    (by rfl)
    (by norm_num [loanW])
    (by norm_num [process_loan_repayment_from_savings, sacctW, loanW,
      sacctW1, sloanW1, stxnW, srepW, get_loan_repayment_amount,
      update_available_balance, min_def])

/-! ### C10: a zero-savings borrower never has deposits redirected -/

/-- C10: when the member has no savings account, or one with a
non-positive balance, `set_loan_collateral` at disbursement changes
nothing — in particular `has_active_loan` is never raised; and for an
account whose flag is down, the deposit form books an ordinary
deposit (balance grows by the full amount, no `loan_repayment` row, no
LoanRepayment, the active loan untouched) while the auto-repayment
helper refuses outright. -/
theorem unset_flag_never_redirects_deposits
    (s : SavingsAccount) (hbal : s.balance ≤ 0)
    (acct : SavingsAccount) (hal : acct.has_active_loan = false)
    (ttype : SavTxnType) (A : ℚ) (lo : Option Loan)
    (loan : Loan) (amount : ℚ) (dep : SavingsTxn) :
    set_loan_collateral none = (none, none, false) ∧
    set_loan_collateral (some s) = (some s, none, false) ∧
    (savings_deposit_form_save (some acct) ttype A lo).acct.balance =
      acct.balance + A ∧
    (savings_deposit_form_save (some acct) ttype A lo).acct.has_active_loan =
      false ∧
    (savings_deposit_form_save (some acct) ttype A lo).repay_txn = none ∧
    (savings_deposit_form_save (some acct) ttype A lo).repayment = none ∧
    (savings_deposit_form_save (some acct) ttype A lo).loan = lo ∧
    (savings_deposit_form_save (some acct) ttype A lo).deposit_txn.amount = A ∧
    process_loan_repayment_from_deposit acct loan amount dep =
      .error ("Member has no active loan") := by
  have hns : ¬ 0 < s.balance := not_lt.mpr hbal
  refine ⟨rfl, ?_, ?_, ?_, ?_, ?_, ?_, ?_, ?_⟩ <;>
    simp [set_loan_collateral, savings_deposit_form_save,
      process_loan_repayment_from_deposit, update_available_balance, hns, hal]

/-- C10 witness: the zero-balance account `zeroAcctW` at disbursement
and a later 25-unit voluntary deposit while `loanW` is active. -/
theorem unset_flag_never_redirects_deposits_witness :
    set_loan_collateral none = (none, none, false) ∧
    set_loan_collateral (some zeroAcctW) = (some zeroAcctW, none, false) ∧
    (savings_deposit_form_save (some zeroAcctW) .voluntary 25
      (some loanW)).acct.balance = zeroAcctW.balance + 25 ∧
    (savings_deposit_form_save (some zeroAcctW) .voluntary 25
      (some loanW)).acct.has_active_loan = false ∧
    (savings_deposit_form_save (some zeroAcctW) .voluntary 25
      (some loanW)).repay_txn = none ∧
    (savings_deposit_form_save (some zeroAcctW) .voluntary 25
      (some loanW)).repayment = none ∧
    (savings_deposit_form_save (some zeroAcctW) .voluntary 25
      (some loanW)).loan = some loanW ∧
    (savings_deposit_form_save (some zeroAcctW) .voluntary 25
      (some loanW)).deposit_txn.amount = 25 ∧
    process_loan_repayment_from_deposit zeroAcctW loanW 25 depW =
      .error ("Member has no active loan") :=
  unset_flag_never_redirects_deposits zeroAcctW (by norm_num [zeroAcctW])
    zeroAcctW (by rfl) .voluntary 25 (some loanW) loanW 25 depW

end SitaCoop
